import Mathlib

/-!
Verification of the tool-invocation orchestration loop of `app.py`
(graphRAG question-answering front end).

The embedding models, directly from the source:
  * `run_cypher_query` (lines 36-58): the query executor, with the Neo4j
    session modelled as an oracle `String → Except String records`;
  * the structured model response (`candidates / content / parts`, each part
    optionally carrying `text` and `function_call`) as consumed by `main`;
  * the `while True` loop of `main` (lines 216-269) as a step function
    `loopIter` plus a fuel-indexed iterator `runLoop` over a scripted
    model (`script : Nat → ModelResponse` gives the response returned by
    the k-th `chat.send_message` call);
  * the post-loop final-answer extraction (lines 271-279) as `finalize`;
  * `setup_connections` (lines 21-34) and the outer try/except of `main`
    (lines 82-283) as `mainModel`.

Python truthiness is modelled explicitly: a part's `text` contributes only
when present and non-empty.  The source uses `str.strip()` solely in
truthiness tests (`if X.strip():`, lines 230, 237, 273); that test is
modelled by `hasContent` (true iff some character is non-whitespace),
which is exactly the truthiness of the stripped string.
-/

namespace App

/-! ## JSON values (the arguments of `json.dumps`) -/

inductive Json where
  | null
  | bool (b : Bool)
  | num (n : Int)
  | str (s : String)
  | arr (elems : List Json)
  | obj (fields : List (String × Json))

/-! ## Query executor: `run_cypher_query` (app.py lines 36-58)

The Neo4j driver session (`session.run` plus record iteration, lines 45-50)
is the fallible part; it is modelled as an oracle from query strings to
either a list of records (each already normalised to JSON fields, as by
line 48) or an exception message.  On success the code returns
`json.dumps(result_list)`; on any exception it returns
`json.dumps({"error": str(e)})` (line 56).  We model the value handed to
`json.dumps`. -/

def run_cypher_query (datasource : String → Except String (List (List (String × Json))))
    (query : String) : Json :=
  match datasource query with
  | Except.ok records => Json.arr (records.map Json.obj)
  | Except.error e => Json.obj [("error", Json.str e)]

/-! ## Model response structure -/

structure FunctionCall where
  name : String
  args : List (String × String)
deriving DecidableEq, Repr

structure Part where
  text : Option String
  function_call : Option FunctionCall
deriving DecidableEq, Repr

structure Content where
  parts : List Part
deriving DecidableEq, Repr

structure Candidate where
  content : Content
deriving DecidableEq, Repr

/-- A model response; `candidates := none` models a response without a
usable candidates attribute (`not hasattr(response, "candidates")` or a
`None` value). -/
structure ModelResponse where
  candidates : Option (List Candidate)
deriving DecidableEq, Repr

/-- The parts inspected by the loop: `response.candidates[0].content.parts`.
Empty exactly when line 218's guard
`not hasattr(...) or not response.candidates or not response.candidates[0].content.parts`
fires. -/
def getParts (r : ModelResponse) : List Part :=
  match r.candidates with
  | none => []
  | some [] => []
  | some (c :: _) => c.content.parts

/-- The text fragments collected by
`"".join(part.text for part in parts if hasattr(part, "text") and part.text)`
(lines 229, 235, 272): only present, non-empty (truthy) texts contribute. -/
def partTextChunks (ps : List Part) : List String :=
  ps.filterMap fun p =>
    match p.text with
    | some t => if t = "" then none else some t
    | none => none

def textConcat (ps : List Part) : String :=
  String.join (partTextChunks ps)

/-- Lines 222-226: the function calls collected from the parts
(`part.function_call` when present; a present object is truthy). -/
def functionCalls (ps : List Part) : List FunctionCall :=
  ps.filterMap Part.function_call

/-- The dispatch guard of line 252:
`function_name == "run_cypher_query" and "query" in args`. -/
def validCall (fc : FunctionCall) : Bool :=
  fc.name == "run_cypher_query" && (fc.args.lookup "query").isSome

/-- The query string a valid call executes (`args["query"]`, line 253). -/
def queryArg (fc : FunctionCall) : String :=
  (fc.args.lookup "query").getD ""

/-- Whitespace as stripped by Python's `str.strip()` (ASCII range). -/
def isPyWhitespace (c : Char) : Bool :=
  c = ' ' || c = '\t' || c = '\n' || c = '\r' || c = '\x0b' || c = '\x0c'

/-- The truthiness of `s.strip()` in Python: true iff the string has a
non-whitespace character, i.e. iff stripping leaves it non-empty. -/
def hasContent (s : String) : Bool :=
  s.data.any fun c => !(isPyWhitespace c)

/-- Image of `Part.from_function_response(name=function_name,
response=...)` with the `results` payload (lines 258-263). -/
structure FunctionResponsePart where
  name : String
  results : String
deriving DecidableEq, Repr

/-- Observable events of one question-processing run: each executor
invocation (line 255) and each `chat.send_message(function_responses)`
(line 267), in program order. -/
inductive Event where
  | execQuery (query : String)
  | send (message : List FunctionResponsePart)
deriving DecidableEq, Repr

/-- The dispatch loop of lines 246-263: for each collected function call,
if the guard of line 252 holds, invoke the executor and append a
function-response part tagged with the call's own name.  Returns the
executor events (in dispatch order) and the accumulated
`function_responses` list. -/
def dispatch (executor : String → String) :
    List FunctionCall → List Event × List FunctionResponsePart
  | [] => ([], [])
  | fc :: rest =>
    let tail := dispatch executor rest
    if fc.name == "run_cypher_query" then
      match fc.args.lookup "query" with
      | some q =>
        (Event.execQuery q :: tail.fst,
         { name := fc.name, results := executor q } :: tail.snd)
      | none => tail
    else tail

/-! ## The orchestration loop state -/

/-- The loop-local state of `main`.  `flushed` records the interim
narration blocks rendered by lines 240-241 (since `step_content` is
cleared after every flush, each flush shows exactly one interim text).
`sends` counts `chat.send_message` calls made so far; `trace` is the
event log. -/
structure LoopState where
  response : ModelResponse
  final_answer_text : String
  flushed : List String
  trace : List Event
  sends : Nat
deriving DecidableEq, Repr

inductive StepOut where
  | halt (s : LoopState)
  | roundTrip (s : LoopState)
deriving DecidableEq, Repr

/-- One iteration of the `while True` loop (lines 216-269).
`script k` is the response returned by the k-th `chat.send_message`. -/
def loopIter (executor : String → String) (script : Nat → ModelResponse)
    (s : LoopState) : StepOut :=
  let ps := getParts s.response
  if ps = [] then
    StepOut.halt s
  else
    let fcs := functionCalls ps
    if fcs = [] then
      let text_response := textConcat ps
      StepOut.halt { s with
        final_answer_text :=
          if hasContent text_response then text_response else s.final_answer_text }
    else
      let interim_text := textConcat ps
      let s1 := if hasContent interim_text then
          { s with flushed := s.flushed ++ [interim_text] } else s
      let dr := dispatch executor fcs
      let s2 := { s1 with trace := s1.trace ++ dr.fst }
      if dr.snd = [] then
        StepOut.halt s2
      else
        StepOut.roundTrip { s2 with
          trace := s2.trace ++ [Event.send dr.snd],
          response := script s2.sends,
          sends := s2.sends + 1 }

/-- The loop itself, with fuel.  `none` means the fuel bound was exhausted
before the loop reached any of its `break` statements. -/
def runLoop (executor : String → String) (script : Nat → ModelResponse) :
    Nat → LoopState → Option LoopState
  | 0, _ => none
  | fuel + 1, s =>
    match loopIter executor script s with
    | StepOut.halt s' => some s'
    | StepOut.roundTrip s' => runLoop executor script fuel s'

/-- State after line 200: the initial `chat.send_message(user_query)` is
send number 0; `final_answer_text = ""` (line 212). -/
def initState (script : Nat → ModelResponse) : LoopState :=
  { response := script 0
    final_answer_text := ""
    flushed := []
    trace := []
    sends := 1 }

/-- Lines 271-275: after the loop, re-extract text from the last response
and overwrite the final answer when the stripped text is non-empty. -/
def finalize (s : LoopState) : LoopState :=
  let ps := getParts s.response
  if ps = [] then s
  else
    let final_text := textConcat ps
    if hasContent final_text then { s with final_answer_text := final_text } else s

/-- One whole question-processing run (lines 200-279).  The resulting
`final_answer_text` is exactly the string rendered by
`st.markdown(final_answer_text)` at line 279. -/
def runMain (executor : String → String) (script : Nat → ModelResponse)
    (fuel : Nat) : Option LoopState :=
  (runLoop executor script fuel (initState script)).map finalize

/-! ## Fatal-error handler and startup (lines 21-34, 281-283) -/

/-- The user-visible message of the except handler:
`st.error(f"An error occurred: {str(e)}")` (line 283). -/
def errorMessageShown (e : String) : String :=
  "An error occurred: " ++ e

/-- The logged message of the same handler (line 282). -/
def loggedErrorMessage (e : String) : String :=
  "Error processing query: " ++ e

inductive PyError where
  | unboundLocalError (varName : String)
deriving DecidableEq, Repr

/-- Model of `setup_connections` (lines 21-34).  The `try` block assigns the four
locals in order from `st.secrets`; a missing key raises `KeyError`, which
the handler catches and only logs (lines 31-32, no backup assignment).
The `return` statement then reads the first never-assigned local and
raises `UnboundLocalError`. -/
def setup_connections (secrets : String → Option String) :
    Except PyError (String × String × String × String) :=
  match secrets "NEO4J_URI" with
  | none => Except.error (PyError.unboundLocalError "neo4j_uri")
  | some neo4j_uri =>
    match secrets "NEO4J_USER" with
    | none => Except.error (PyError.unboundLocalError "neo4j_user")
    | some neo4j_user =>
      match secrets "NEO4J_PASSWORD" with
      | none => Except.error (PyError.unboundLocalError "neo4j_password")
      | some neo4j_password =>
        match secrets "api_key" with
        | none => Except.error (PyError.unboundLocalError "google_api_key")
        | some google_api_key =>
          Except.ok (neo4j_uri, neo4j_user, neo4j_password, google_api_key)

inductive MainResult where
  | answered (finalAnswerText : String)
  | errorShown (message : String)
deriving DecidableEq, Repr

/-- The control skeleton of `main` around one button press:
`setup_connections` runs at line 71, before the `try` of line 82, so its
exceptions propagate uncaught; exceptions raised inside the `try` body
(modelled as `body` returning `Except.error msg`) are converted by the
handler of lines 281-283 into a shown error message. -/
def mainModel (secrets : String → Option String)
    (body : String × String × String × String → Except String String) :
    Except PyError MainResult :=
  match setup_connections secrets with
  | Except.error err => Except.error err
  | Except.ok creds =>
    match body creds with
    | Except.ok answer => Except.ok (MainResult.answered answer)
    | Except.error e => Except.ok (MainResult.errorShown (errorMessageShown e))

/-! ## Characterisation of the dispatch loop -/

/-- The executor events of one dispatch pass: exactly one `execQuery` per
call passing the line-252 guard, in list order. -/
theorem dispatch_fst (executor : String → String) (fcs : List FunctionCall) :
    (dispatch executor fcs).fst
      = (fcs.filter validCall).map (fun fc => Event.execQuery (queryArg fc)) := by
  induction fcs with
  | nil => rfl
  | cons fc rest ih =>
    by_cases hname : fc.name = "run_cypher_query"
    · cases hq : fc.args.lookup "query" with
      | none => simp [dispatch, validCall, hname, hq, ih]
      | some q => simp [dispatch, validCall, queryArg, hname, hq, ih]
    · simp [dispatch, validCall, hname, ih]

/-- The function-response parts of one dispatch pass: one per valid call,
in order, tagged with that call's own name and the executor's output on
that call's query. -/
theorem dispatch_snd (executor : String → String) (fcs : List FunctionCall) :
    (dispatch executor fcs).snd
      = (fcs.filter validCall).map
          (fun fc => { name := fc.name, results := executor (queryArg fc) : FunctionResponsePart }) := by
  induction fcs with
  | nil => rfl
  | cons fc rest ih =>
    by_cases hname : fc.name = "run_cypher_query"
    · cases hq : fc.args.lookup "query" with
      | none => simp [dispatch, validCall, hname, hq, ih]
      | some q => simp [dispatch, validCall, queryArg, hname, hq, ih]
    · simp [dispatch, validCall, hname, ih]

/-- Concrete response fixtures used by witnesses. -/
def malformedResp : ModelResponse := { candidates := none }

def helloResp : ModelResponse :=
  { candidates := some [{ content := { parts := [{ text := some "hello", function_call := none }] } }] }

def narrState : LoopState :=
  { response := malformedResp
    final_answer_text := ""
    flushed := ["Performing Global Search..."]
    trace := [Event.execQuery "MATCH (n) RETURN n"]
    sends := 2 }

/-! ## Claim theorems -/

/-- Claim C4: for every query string, when query execution against the
data source fails, `run_cypher_query` returns the well-formed payload
`{"error": message}` instead of propagating the exception, so the
orchestration loop always receives a well-formed QueryResult. -/
theorem C4_executor_error_payload
    (datasource : String → Except String (List (List (String × Json))))
    (query e : String) (h : datasource query = Except.error e) :
    run_cypher_query datasource query = Json.obj [("error", Json.str e)] := by
  simp [run_cypher_query, h]

theorem C4_witness :
    ((fun _ : String =>
        (Except.error "connection refused" : Except String (List (List (String × Json)))))
      "MATCH (n) RETURN n" = Except.error "connection refused")
    ∧ run_cypher_query (fun _ => Except.error "connection refused") "MATCH (n) RETURN n"
        = Json.obj [("error", Json.str "connection refused")] :=
  ⟨rfl, C4_executor_error_payload (fun _ => Except.error "connection refused")
      "MATCH (n) RETURN n" "connection refused" rfl⟩

/-- Claim C5: a response with an empty parts sequence or absent candidates
makes the loop terminate at once, without throwing, keeping whatever
narration and final answer were accumulated so far; the post-loop
extraction also leaves the state untouched. -/
theorem C5_malformed_response_halts
    (executor : String → String) (script : Nat → ModelResponse)
    (s : LoopState) (h : getParts s.response = []) :
    loopIter executor script s = StepOut.halt s
    ∧ (∀ fuel : Nat, runLoop executor script (fuel + 1) s = some s)
    ∧ finalize s = s := by
  refine ⟨?_, ?_, ?_⟩
  · simp [loopIter, h]
  · intro fuel
    simp [runLoop, loopIter, h]
  · simp [finalize, h]

theorem C5_witness :
    getParts narrState.response = []
    ∧ loopIter (fun q => q) (fun _ => malformedResp) narrState = StepOut.halt narrState
    ∧ runLoop (fun q => q) (fun _ => malformedResp) (2 + 1) narrState = some narrState
    ∧ finalize narrState = narrState := by
  have h : getParts narrState.response = [] := rfl
  have hc := C5_malformed_response_halts (fun q => q) (fun _ => malformedResp) narrState h
  exact ⟨h, hc.1, hc.2.1 2, hc.2.2⟩

/-- Claim C9: every function-response part sent back to the session
carries the same tool name as the function call it answers (position by
position over the valid calls, in order). -/
theorem C9_result_names_match (executor : String → String) (fcs : List FunctionCall) :
    ((dispatch executor fcs).snd).map FunctionResponsePart.name
      = (fcs.filter validCall).map FunctionCall.name := by
  simp [dispatch_snd]

/-- Claim C10: if loading any required secret fails, `setup_connections`
raises an unbound-local error from its `return` statement (its handler
only logs and assigns no backups), and this error escapes `main`
uncaught because `setup_connections` runs before the question-processing
`try` block. -/
theorem C10_missing_secret_uncaught (secrets : String → Option String)
    (body : String × String × String × String → Except String String)
    (h : secrets "NEO4J_URI" = none ∨ secrets "NEO4J_USER" = none
       ∨ secrets "NEO4J_PASSWORD" = none ∨ secrets "api_key" = none) :
    ∃ v, mainModel secrets body = Except.error (PyError.unboundLocalError v) := by
  cases h1 : secrets "NEO4J_URI" with
  | none => exact ⟨"neo4j_uri", by simp [mainModel, setup_connections, h1]⟩
  | some uri =>
    cases h2 : secrets "NEO4J_USER" with
    | none => exact ⟨"neo4j_user", by simp [mainModel, setup_connections, h1, h2]⟩
    | some user =>
      cases h3 : secrets "NEO4J_PASSWORD" with
      | none => exact ⟨"neo4j_password", by simp [mainModel, setup_connections, h1, h2, h3]⟩
      | some pw =>
        cases h4 : secrets "api_key" with
        | none =>
          exact ⟨"google_api_key", by simp [mainModel, setup_connections, h1, h2, h3, h4]⟩
        | some key => simp_all

theorem C10_witness :
    ((fun _ : String => (none : Option String)) "NEO4J_URI" = none
      ∨ (fun _ : String => (none : Option String)) "NEO4J_USER" = none
      ∨ (fun _ : String => (none : Option String)) "NEO4J_PASSWORD" = none
      ∨ (fun _ : String => (none : Option String)) "api_key" = none)
    ∧ ∃ v, mainModel (fun _ => none) (fun _ => Except.ok " answer")
        = Except.error (PyError.unboundLocalError v) :=
  ⟨Or.inl rfl,
   C10_missing_secret_uncaught (fun _ => none) (fun _ => Except.ok "answer") (Or.inl rfl)⟩

/-- Claim C7 counterexample: the user-visible message of the fatal
handler embeds the raw exception text verbatim (here the raw text
"Neo4j driver fault xyzzy" appears inside the shown message), so raw
exception text is not confined to the log. -/
theorem C7_counterexample :
    errorMessageShown "Neo4j driver fault xyzzy"
      = "An error occurred: " ++ "Neo4j driver fault xyzzy" ++ ""
    ∧ ("Neo4j driver fault xyzzy" : String) ≠ "" := by
  constructor
  · rfl
  · decide

/-- Claim C7 (amended): every fatal path shows the single message
`"An error occurred: " ++ raw`, which embeds but never equals the raw
exception text alone; the raw text is also logged. -/
theorem C7_error_message_shape (e : String) :
    errorMessageShown e = "An error occurred: " ++ e
    ∧ errorMessageShown e ≠ e
    ∧ loggedErrorMessage e = "Error processing query: " ++ e := by
  refine ⟨rfl, ?_, rfl⟩
  intro hcontra
  have hlen := congrArg String.length hcontra
  rw [errorMessageShown, String.length_append] at hlen
  have h19 : ("An error occurred: " : String).length = 19 := rfl
  omega

/-! ## Loop iteration lemmas and the remaining claims -/

/-- A response whose parts yield at least one function call has a
non-empty parts list. -/
theorem functionCalls_ne_nil_parts (ps : List Part) (h : functionCalls ps ≠ []) :
    ps ≠ [] := by
  intro hp
  exact h (by simp [hp, functionCalls])

/-- The state carried by either outcome of one loop iteration. -/
def stateOf : StepOut → LoopState
  | StepOut.halt s => s
  | StepOut.roundTrip s => s

/-- More response and state fixtures for the witnesses. -/
def wsResp : ModelResponse :=
  { candidates := some [{ content := { parts := [{ text := some " ", function_call := none }] } }] }

def callA : FunctionCall :=
  { name := "run_cypher_query", args := [("query", "MATCH (a) RETURN a")] }

def callBadName : FunctionCall :=
  { name := "other_tool", args := [("query", "MATCH (b) RETURN b")] }

def callNoQuery : FunctionCall :=
  { name := "run_cypher_query", args := [("cypher", "MATCH (c) RETURN c")] }

def callD : FunctionCall :=
  { name := "run_cypher_query", args := [("query", "MATCH (d) RETURN d")] }

def multiResp : ModelResponse :=
  { candidates := some [{ content := { parts :=
      [ { text := some "Performing Global Search...", function_call := none }
      , { text := none, function_call := some callA }
      , { text := none, function_call := some callBadName }
      , { text := none, function_call := some callNoQuery }
      , { text := none, function_call := some callD } ] } }] }

def multiState : LoopState :=
  { response := multiResp, final_answer_text := "", flushed := [], trace := [], sends := 1 }

def invalidResp : ModelResponse :=
  { candidates := some [{ content := { parts :=
      [ { text := none, function_call := some callBadName }
      , { text := none, function_call := some callNoQuery } ] } }] }

def invalidState : LoopState :=
  { response := invalidResp, final_answer_text := "so far", flushed := [], trace := [], sends := 3 }

/-- Claim C2 counterexample: a terminal response whose single text part is
the one-space string " " has text concatenation " ", yet the run's final
answer is the empty string (the code keeps an answer only when the
stripped text is non-empty), so the final answer does not equal the
concatenation of the response's text parts. -/
theorem C2_counterexample :
    functionCalls (getParts wsResp) = []
    ∧ textConcat (getParts wsResp) = " "
    ∧ (runMain (fun q => q) (fun _ => wsResp) 1).map LoopState.final_answer_text = some ""
    ∧ (" " : String) ≠ "" := by
  refine ⟨rfl, rfl, by decide, by decide⟩

/-- Claim C2 (amended): for every response with zero function calls, the
loop terminates in that single inspection step (one fuel unit suffices;
no executor event and no further send appears), and the final answer is
the concatenation of the response's text parts when that concatenation
strips non-empty, and the empty string otherwise. -/
theorem C2_zero_toolcalls_single_step (executor : String → String)
    (script : Nat → ModelResponse)
    (h : functionCalls (getParts (script 0)) = []) :
    ∃ s, runLoop executor script 1 (initState script) = some s
      ∧ s.trace = [] ∧ s.sends = 1 ∧ s.flushed = []
      ∧ runMain executor script 1 = some (finalize s)
      ∧ (finalize s).final_answer_text
          = (if hasContent (textConcat (getParts (script 0)))
             then textConcat (getParts (script 0)) else "") := by
  by_cases hp : getParts (script 0) = []
  · have hrun : runLoop executor script 1 (initState script) = some (initState script) := by
      simp [runLoop, loopIter, initState, hp]
    refine ⟨initState script, hrun, rfl, rfl, rfl, by simp [runMain, hrun], ?_⟩
    have hfin : finalize (initState script) = initState script := by
      simp [finalize, initState, hp]
    rw [hfin]
    have hj : textConcat (getParts (script 0)) = "" := by
      rw [hp]; rfl
    simp [initState, hj, hasContent]
  · by_cases htr : hasContent (textConcat (getParts (script 0))) = true
    · have hrun : runLoop executor script 1 (initState script)
          = some { initState script with
                     final_answer_text := textConcat (getParts (script 0)) } := by
        simp [runLoop, loopIter, initState, hp, h, htr]
      refine ⟨_, hrun, rfl, rfl, rfl, by simp [runMain, hrun], ?_⟩
      simp [finalize, initState, hp, htr]
    · have hrun : runLoop executor script 1 (initState script) = some (initState script) := by
        simp [runLoop, loopIter, initState, hp, h, htr]
      refine ⟨initState script, hrun, rfl, rfl, rfl, by simp [runMain, hrun], ?_⟩
      simp [finalize, initState, hp, htr]

theorem C2_witness :
    functionCalls (getParts ((fun _ : Nat => helloResp) 0)) = []
    ∧ ∃ s, runLoop (fun q => q) (fun _ => helloResp) 1 (initState (fun _ => helloResp)) = some s
      ∧ s.trace = [] ∧ s.sends = 1 ∧ s.flushed = []
      ∧ runMain (fun q => q) (fun _ => helloResp) 1 = some (finalize s)
      ∧ (finalize s).final_answer_text
          = (if hasContent (textConcat (getParts ((fun _ : Nat => helloResp) 0)))
             then textConcat (getParts ((fun _ : Nat => helloResp) 0)) else "") :=
  ⟨rfl, C2_zero_toolcalls_single_step (fun q => q) (fun _ => helloResp) rfl⟩

/-- Claim C3: for every response with at least one function call, the
iteration's new events are exactly one executor invocation per valid
call (right name and a "query" argument), in the order the parts appear,
followed by at most the single send of the collected function responses:
every executor call completes before the next session send. -/
theorem C3_one_exec_per_valid_call (executor : String → String)
    (script : Nat → ModelResponse) (s : LoopState)
    (h : functionCalls (getParts s.response) ≠ []) :
    ∃ tail,
      (stateOf (loopIter executor script s)).trace
        = s.trace
          ++ ((functionCalls (getParts s.response)).filter validCall).map
              (fun fc => Event.execQuery (queryArg fc))
          ++ tail
      ∧ (tail = [] ∨ ∃ frs, frs ≠ [] ∧ tail = [Event.send frs]) := by
  have hp : getParts s.response ≠ [] := functionCalls_ne_nil_parts _ h
  by_cases hsnd : (dispatch executor (functionCalls (getParts s.response))).snd = []
  · refine ⟨[], ?_, Or.inl rfl⟩
    by_cases htr : hasContent (textConcat (getParts s.response)) = true <;>
      simp [loopIter, stateOf, hp, h, htr, hsnd, dispatch_fst]
  · refine ⟨[Event.send (dispatch executor (functionCalls (getParts s.response))).snd],
      ?_, Or.inr ⟨_, hsnd, rfl⟩⟩
    by_cases htr : hasContent (textConcat (getParts s.response)) = true <;>
      simp [loopIter, stateOf, hp, h, htr, hsnd, dispatch_fst]

theorem C3_witness :
    functionCalls (getParts multiState.response) ≠ []
    ∧ ∃ tail,
      (stateOf (loopIter (fun q => q) (fun _ => malformedResp) multiState)).trace
        = multiState.trace
          ++ ((functionCalls (getParts multiState.response)).filter validCall).map
              (fun fc => Event.execQuery (queryArg fc))
          ++ tail
      ∧ (tail = [] ∨ ∃ frs, frs ≠ [] ∧ tail = [Event.send frs]) :=
  ⟨by decide,
   C3_one_exec_per_valid_call (fun q => q) (fun _ => malformedResp) multiState (by decide)⟩

/-- Claim C6: a response that signals function calls none of which passes
the dispatch guard makes the loop halt in that iteration (the
`function_responses` list stays empty, so line 269's `break` fires):
no executor event, no further send, and the session, response and final
answer are untouched. -/
theorem C6_contract_violation_halts (executor : String → String)
    (script : Nat → ModelResponse) (s : LoopState)
    (h1 : functionCalls (getParts s.response) ≠ [])
    (h2 : (functionCalls (getParts s.response)).filter validCall = []) :
    ∃ s', loopIter executor script s = StepOut.halt s'
      ∧ s'.trace = s.trace ∧ s'.sends = s.sends ∧ s'.response = s.response
      ∧ s'.final_answer_text = s.final_answer_text := by
  have hp : getParts s.response ≠ [] := functionCalls_ne_nil_parts _ h1
  have hsnd : (dispatch executor (functionCalls (getParts s.response))).snd = [] := by
    rw [dispatch_snd, h2]; rfl
  have hfst : (dispatch executor (functionCalls (getParts s.response))).fst = [] := by
    rw [dispatch_fst, h2]; rfl
  by_cases htr : hasContent (textConcat (getParts s.response)) = true
  · refine ⟨{ s with flushed := s.flushed ++ [textConcat (getParts s.response)] },
      ?_, rfl, rfl, rfl, rfl⟩
    simp [loopIter, hp, h1, htr, hsnd, hfst]
  · refine ⟨s, ?_, rfl, rfl, rfl, rfl⟩
    simp [loopIter, hp, h1, htr, hsnd, hfst]

theorem C6_witness :
    functionCalls (getParts invalidState.response) ≠ []
    ∧ (functionCalls (getParts invalidState.response)).filter validCall = []
    ∧ ∃ s', loopIter (fun q => q) (fun _ => malformedResp) invalidState = StepOut.halt s'
      ∧ s'.trace = invalidState.trace ∧ s'.sends = invalidState.sends
      ∧ s'.response = invalidState.response
      ∧ s'.final_answer_text = invalidState.final_answer_text :=
  ⟨by decide, by decide,
   C6_contract_violation_halts (fun q => q) (fun _ => malformedResp) invalidState
     (by decide) (by decide)⟩

/-! ## Claim C1: the loop has no round-trip cap -/

/-- A model that requests the registered tool, with a query argument, on
every turn. -/
def alwaysToolCall : FunctionCall :=
  { name := "run_cypher_query", args := [("query", "MATCH (n) RETURN n LIMIT 1")] }

def alwaysToolResp : ModelResponse :=
  { candidates := some [{ content :=
      { parts := [{ text := none, function_call := some alwaysToolCall }] } }] }

/-- Against the always-requesting model, no amount of fuel makes the
`while True` loop reach any of its `break` statements: every iteration
dispatches the valid call and sends once more. -/
theorem runLoop_alwaysTool_none (executor : String → String) :
    ∀ (fuel : Nat) (s : LoopState), s.response = alwaysToolResp →
      runLoop executor (fun _ => alwaysToolResp) fuel s = none := by
  intro fuel
  induction fuel with
  | zero => intro s _; rfl
  | succ n ih =>
    intro s h
    have hiter : loopIter executor (fun _ => alwaysToolResp) s
        = StepOut.roundTrip
            { response := alwaysToolResp
              final_answer_text := s.final_answer_text
              flushed := s.flushed
              trace := (s.trace ++ [Event.execQuery "MATCH (n) RETURN n LIMIT 1"])
                ++ [Event.send [{ name := "run_cypher_query",
                                  results := executor "MATCH (n) RETURN n LIMIT 1" }]]
              sends := s.sends + 1 } := by
      simp [loopIter, h, alwaysToolResp, alwaysToolCall, getParts, functionCalls,
            textConcat, partTextChunks, hasContent, dispatch]
    simp only [runLoop, hiter]
    exact ih _ rfl

/-- Claim C1: the orchestration loop of `main` imposes no round-trip cap
at all.  For the model that requests a valid tool call on every
response, the run exhausts every fuel bound without terminating and
without ever reporting a budget-exceeded condition (no such path exists
in the code), contradicting the required `LoopBudgetExceeded`
behaviour. -/
theorem C1_no_round_trip_cap (executor : String → String) (fuel : Nat) :
    runMain executor (fun _ => alwaysToolResp) fuel = none := by
  unfold runMain
  rw [runLoop_alwaysTool_none executor fuel (initState fun _ => alwaysToolResp) rfl]
  rfl

/-! ## Claim C8: absent answer versus empty answer -/

/-- Claim C8 counterexample: a run in which no terminal text is ever
produced (the very first response is malformed) renders the literal
empty string as the answer: the presentation layer receives blank
output, not a distinct absence signal or fallback message. -/
theorem C8_counterexample :
    (runMain (fun q => q) (fun _ => malformedResp) 3).map LoopState.final_answer_text
      = some "" := by
  rfl

/-- One loop iteration can only keep the previous final answer or store a
text concatenation that has content. -/
theorem loopIter_final_inv (executor : String → String) (script : Nat → ModelResponse)
    (s : LoopState)
    (hinv : s.final_answer_text = "" ∨ hasContent s.final_answer_text = true) :
    ∀ s', (loopIter executor script s = StepOut.halt s'
        ∨ loopIter executor script s = StepOut.roundTrip s') →
      s'.final_answer_text = "" ∨ hasContent s'.final_answer_text = true := by
  intro s' h
  by_cases hp : getParts s.response = []
  · rcases h with h | h
    · simp [loopIter, hp] at h
      rw [← h]
      exact hinv
    · simp [loopIter, hp] at h
  · by_cases hfc : functionCalls (getParts s.response) = []
    · rcases h with h | h
      · by_cases htr : hasContent (textConcat (getParts s.response)) = true
        · simp [loopIter, hp, hfc, htr] at h
          rw [← h]
          exact Or.inr htr
        · simp [loopIter, hp, hfc, htr] at h
          rw [← h]
          exact hinv
      · simp [loopIter, hp, hfc] at h
    · by_cases hsnd : (dispatch executor (functionCalls (getParts s.response))).snd = []
      · rcases h with h | h
        · by_cases htr : hasContent (textConcat (getParts s.response)) = true <;>
            simp [loopIter, hp, hfc, htr, hsnd] at h <;>
            (rw [← h]; exact hinv)
        · by_cases htr : hasContent (textConcat (getParts s.response)) = true <;>
            simp [loopIter, hp, hfc, htr, hsnd] at h
      · rcases h with h | h
        · by_cases htr : hasContent (textConcat (getParts s.response)) = true <;>
            simp [loopIter, hp, hfc, htr, hsnd] at h
        · by_cases htr : hasContent (textConcat (getParts s.response)) = true <;>
            simp [loopIter, hp, hfc, htr, hsnd] at h <;>
            (rw [← h]; exact hinv)

/-- The loop preserves the final-answer invariant. -/
theorem runLoop_final_inv (executor : String → String) (script : Nat → ModelResponse) :
    ∀ (fuel : Nat) (s s' : LoopState),
      (s.final_answer_text = "" ∨ hasContent s.final_answer_text = true) →
      runLoop executor script fuel s = some s' →
      s'.final_answer_text = "" ∨ hasContent s'.final_answer_text = true := by
  intro fuel
  induction fuel with
  | zero =>
    intro s s' _ hrun
    simp [runLoop] at hrun
  | succ n ih =>
    intro s s' hinv hrun
    simp only [runLoop] at hrun
    cases hstep : loopIter executor script s with
    | halt s1 =>
      rw [hstep] at hrun
      simp at hrun
      rw [← hrun]
      exact loopIter_final_inv executor script s hinv s1 (Or.inl hstep)
    | roundTrip s1 =>
      rw [hstep] at hrun
      exact ih s1 s' (loopIter_final_inv executor script s hinv s1 (Or.inr hstep)) hrun

/-- The post-loop extraction preserves the final-answer invariant. -/
theorem finalize_final_inv (s : LoopState)
    (hinv : s.final_answer_text = "" ∨ hasContent s.final_answer_text = true) :
    (finalize s).final_answer_text = ""
    ∨ hasContent (finalize s).final_answer_text = true := by
  by_cases hp : getParts s.response = []
  · simp [finalize, hp]
    exact hinv
  · by_cases htr : hasContent (textConcat (getParts s.response)) = true
    · simp [finalize, hp, htr]
    · simp [finalize, hp, htr]
      exact hinv

/-- Claim C8 (amended): the run's rendered answer is a plain string with
no separate absence marker, and a kept answer always has non-whitespace
content; hence the empty string is rendered blank (no fallback) and is
exactly the state in which no terminal text was ever kept. -/
theorem C8_empty_answer_is_absence (executor : String → String)
    (script : Nat → ModelResponse) (fuel : Nat) (s : LoopState)
    (h : runMain executor script fuel = some s) :
    s.final_answer_text = "" ∨ hasContent s.final_answer_text = true := by
  unfold runMain at h
  cases hrun : runLoop executor script fuel (initState script) with
  | none =>
    rw [hrun] at h
    simp at h
  | some s0 =>
    rw [hrun] at h
    simp at h
    rw [← h]
    exact finalize_final_inv s0
      (runLoop_final_inv executor script fuel (initState script) s0 (Or.inl rfl) hrun)

def helloFinal : LoopState :=
  { response := helloResp
    final_answer_text := "hello"
    flushed := []
    trace := []
    sends := 1 }

theorem C8_witness :
    runMain (fun q => q) (fun _ => helloResp) 1 = some helloFinal
    ∧ (helloFinal.final_answer_text = ""
        ∨ hasContent helloFinal.final_answer_text = true) :=
  ⟨by rfl,
   C8_empty_answer_is_absence (fun q => q) (fun _ => helloResp) 1 helloFinal (by rfl)⟩

end App
